import Mathlib

/-!
Verification development for the pegasus shell helper
(src/shell/command_helper.h): the scan-and-apply pipeline with bounded
concurrency, the top-K row container, the perf-counter name parser, the
multi-node command fan-out, and the counter aggregation of get_app_stat.

Every definition below is a shallow embedding of the corresponding C++
entity; source line numbers refer to src/shell/command_helper.h.
-/

/-! ## top_container (source lines 54-96)

`top_heap` is `std::priority_queue<top_heap_item, vector, top_heap_compare>`.
With comparator `i1.row_size < i2.row_size` the C++ priority queue is a
max-heap: `top()` yields an item of maximal `row_size`, `pop()` removes it.
The heap is modelled as the list of held items; `top` extracts the first
maximal element (the C++ tie order among equal sizes is unspecified).
-/

structure top_heap_item where
  hash_key : List Char
  sort_key : List Char
  row_size : Int
deriving DecidableEq

/-- Source line 69: `i1.row_size < i2.row_size`. -/
def top_heap_compare (i1 i2 : top_heap_item) : Bool :=
  i1.row_size < i2.row_size

/-- `top()` of the priority queue: an element maximal w.r.t. `top_heap_compare`. -/
def top_heap_top (heap : List top_heap_item) : Option top_heap_item :=
  heap.foldl
    (fun acc it =>
      match acc with
      | none => some it
      | some m => if top_heap_compare m it then some it else some m)
    none

/-- Source lines 76-88: `top_container::push`.  If fewer than `_count` items
are held, insert; otherwise compare the incoming `row_size` with `top()`
and, when `top().row_size < row_size`, pop the top and insert the new item. -/
def top_container_push (count : Nat) (heap : List top_heap_item)
    (it : top_heap_item) : List top_heap_item :=
  if heap.length < count then
    it :: heap
  else
    match top_heap_top heap with
    | none => heap
    | some t => if top_heap_compare t it then it :: heap.erase t else heap

/-- Applying `push` to a whole sequence of offers, starting from the empty heap. -/
def top_container_push_all (count : Nat) (items : List top_heap_item) :
    List top_heap_item :=
  items.foldl (top_container_push count) []

/-! ## parse_app_pegasus_perf_counter_name (source lines 343-359)

The C++ uses `std::string::find_last_of`, `sscanf(s, "%d.%d", ...)` and
`substr(find2 + 1, find - find2 - 1)` where the length argument is computed
in `std::string::size_type` (unsigned 64-bit, wrapping), and `substr`
clamps the length to the remaining characters.
-/

/-- The whitespace class skipped by a `%d` conversion of `sscanf`. -/
def is_sscanf_space (c : Char) : Bool :=
  c = ' ' || c = '\t' || c = '\n' || c = '\x0b' || c = '\x0c' || c = '\r'

def digits_to_nat (ds : List Char) : Nat :=
  ds.foldl (fun acc c => acc * 10 + (c.toNat - '0'.toNat)) 0

/-- One `%d` conversion: skip whitespace, optional sign, a nonempty run of
decimal digits; returns the value and the unconsumed rest.  (Overflow of the
C `int` is not modelled; no claim exercises it.) -/
def sscanf_int (s : List Char) : Option (Int × List Char) :=
  let s1 := s.dropWhile is_sscanf_space
  match s1 with
  | '-' :: rest =>
    let ds := rest.takeWhile Char.isDigit
    if ds.isEmpty then none
    else some (-(Int.ofNat (digits_to_nat ds)), rest.drop ds.length)
  | '+' :: rest =>
    let ds := rest.takeWhile Char.isDigit
    if ds.isEmpty then none
    else some (Int.ofNat (digits_to_nat ds), rest.drop ds.length)
  | _ =>
    let ds := s1.takeWhile Char.isDigit
    if ds.isEmpty then none
    else some (Int.ofNat (digits_to_nat ds), s1.drop ds.length)

/-- `sscanf(s, "%d.%d", &a, &b) == 2`: the first `%d`, then a literal dot
(matched exactly, no whitespace skip), then the second `%d`. -/
def sscanf_d_dot_d (s : List Char) : Option (Int × Int) :=
  match sscanf_int s with
  | none => none
  | some (a, r1) =>
    match r1 with
    | '.' :: r2 =>
      match sscanf_int r2 with
      | none => none
      | some (b, _) => some (a, b)
    | _ => none

/-- `std::string::find_last_of(c)`: index of the last occurrence, `none` for npos. -/
def find_last_of : List Char → Char → Option Nat
  | [], _ => none
  | a :: rest, c =>
    match find_last_of rest c with
    | some i => some (i + 1)
    | none => if a = c then some 0 else none

/-- The `size_type` expression `find - find2 - 1`: unsigned 64-bit arithmetic,
wrapping modulo `2 ^ 64` when `find2 ≥ find`. -/
def cxx_size_sub (find find2 : Nat) : Nat :=
  (find + 2 ^ 64 - find2 - 1) % 2 ^ 64

/-- Source lines 343-359.  Yields `(app_id, partition_index, counter_name)`,
or `none` when the C++ function returns false.  `substr(find2 + 1, cnt)`
is `(drop (find2 + 1)).take cnt`: `take` clamps exactly as `substr` does. -/
def parse_app_pegasus_perf_counter_name (name : List Char) :
    Option (Int × Int × List Char) :=
  match find_last_of name '@' with
  | none => none
  | some f =>
    match sscanf_d_dot_d (name.drop (f + 1)) with
    | none => none
    | some (app_id, partition_index) =>
      match find_last_of name '*' with
      | none => none
      | some f2 =>
        some (app_id, partition_index,
          (name.drop (f2 + 1)).take (cxx_size_sub f f2))

/-! ## scan_data_next (source lines 154-282): the split scan pipeline

One `scan_data_context` per split.  The atomics `split_request_count`,
`split_completed`, `*error_occurred` and `split_rows` are shared by the
whole callback tree.  The interleaved execution is modelled as a small-step
transition system: each atomic read-modify-write of the source is one step.
The refill loop's condition test (line 156) and the increment
`split_request_count++` (line 158) are distinct atomic operations in the
source and so are distinct steps here.  Each callback body is one step that
performs its work (lines 164-276), followed by a separate final step for
the trailing `split_request_count--` (line 279, resp. 187/211/258 for the
nested write callbacks), matching the source comment that the decrement
must come last.  `emitted` counts the `fprintf(stderr, ...)` diagnostics
of this split.  The operation tag and `max_batch_count` are parameters.
-/

inductive scan_data_operator
  | SCAN_COPY
  | SCAN_CLEAR
  | SCAN_COUNT
  | SCAN_GEN_GEO
deriving DecidableEq

structure scan_split_state where
  split_request_count : Int
  split_completed : Bool
  error_occurred : Bool
  split_rows : Int
  emitted : Nat
  /-- executions of the refill loop currently at the condition of line 156 -/
  checkers : Nat
  /-- executions that passed the condition but have not yet run line 158 -/
  passed : Nat
  /-- issued `async_next` calls whose callback has not started -/
  fetches : Nat
  /-- issued nested `async_set`/`async_del`/geo `async_set` calls whose
  callback has not started -/
  nested : Nat
  /-- callbacks that ran their body but not yet their final decrement -/
  dec_pending : Nat
deriving DecidableEq

/-- Line 156: `!split_completed.load() && !error_occurred->load() &&
split_request_count.load() < max_batch_count`. -/
def refill_cond (max_batch_count : Int) (s : scan_split_state) : Bool :=
  !s.split_completed && !s.error_occurred &&
    decide (s.split_request_count < max_batch_count)

/-- A refill execution passes the condition of line 156. -/
def refill_pass (s : scan_split_state) : scan_split_state :=
  { s with checkers := s.checkers - 1, passed := s.passed + 1 }

/-- A refill execution fails the condition and leaves the loop. -/
def refill_exit (s : scan_split_state) : scan_split_state :=
  { s with checkers := s.checkers - 1 }

/-- Lines 158-159: `split_request_count++` and `scanner->async_next(...)`;
the loop then returns to its condition. -/
def issue_async_next (s : scan_split_state) : scan_split_state :=
  { s with passed := s.passed - 1,
           split_request_count := s.split_request_count + 1,
           fetches := s.fetches + 1,
           checkers := s.checkers + 1 }

/-- Lines 166-190 / 191-214 / 237-261 (ops COPY, CLEAR, GEN_GEO), a fetch
callback with `ret == PERR_OK`: `split_request_count++` then the nested
asynchronous write is issued; the callback still owes its final decrement. -/
def cb_row_write (s : scan_split_state) : scan_split_state :=
  { s with fetches := s.fetches - 1,
           split_request_count := s.split_request_count + 1,
           nested := s.nested + 1,
           dec_pending := s.dec_pending + 1 }

/-- Lines 215-236 (op COUNT), a fetch callback with `ret == PERR_OK`:
`split_rows++`, statistics, then the synchronous recursive
`scan_data_next(context)` (a new refill execution), then the decrement owed. -/
def cb_row_count (s : scan_split_state) : scan_split_state :=
  { s with fetches := s.fetches - 1,
           split_rows := s.split_rows + 1,
           checkers := s.checkers + 1,
           dec_pending := s.dec_pending + 1 }

/-- Lines 266-267: `ret == PERR_SCAN_COMPLETE`:
`split_completed.store(true)`; no diagnostic, error flag untouched. -/
def cb_scan_complete (s : scan_split_state) : scan_split_state :=
  { s with fetches := s.fetches - 1,
           split_completed := true,
           dec_pending := s.dec_pending + 1 }

/-- Lines 269-275 / 173-180 / 197-204 / 244-251: the error path shared by a
failed scan-next and failed nested writes:
`if (!split_completed.exchange(true)) { fprintf(...); error_occurred->store(true); }`. -/
def report_error (s : scan_split_state) : scan_split_state :=
  if s.split_completed then s
  else { s with split_completed := true,
                error_occurred := true,
                emitted := s.emitted + 1 }

/-- A fetch callback with an error `ret`: the error path, then the decrement owed. -/
def cb_scan_error (s : scan_split_state) : scan_split_state :=
  { report_error s with fetches := s.fetches - 1,
                        dec_pending := s.dec_pending + 1 }

/-- Lines 181-184 / 205-208 / 252-255: a nested write callback with
`err == PERR_OK`: `split_rows++`, recursive `scan_data_next(context)`,
then the decrement owed. -/
def cb_nested_ok (s : scan_split_state) : scan_split_state :=
  { s with nested := s.nested - 1,
           split_rows := s.split_rows + 1,
           checkers := s.checkers + 1,
           dec_pending := s.dec_pending + 1 }

/-- A nested write callback with an error: the error path, then the decrement owed. -/
def cb_nested_error (s : scan_split_state) : scan_split_state :=
  { report_error s with nested := s.nested - 1,
                        dec_pending := s.dec_pending + 1 }

/-- The trailing `split_request_count--` of a callback (line 279 and the
nested variants at 187/211/258). -/
def dec_request_count (s : scan_split_state) : scan_split_state :=
  { s with dec_pending := s.dec_pending - 1,
           split_request_count := s.split_request_count - 1 }

/-- One atomic step of the interleaved execution of a split. -/
inductive scan_step (op : scan_data_operator) (max_batch_count : Int) :
    scan_split_state → scan_split_state → Prop
  | check_pass (s : scan_split_state) (h1 : 0 < s.checkers)
      (h2 : refill_cond max_batch_count s = true) :
      scan_step op max_batch_count s (refill_pass s)
  | check_exit (s : scan_split_state) (h1 : 0 < s.checkers)
      (h2 : refill_cond max_batch_count s = false) :
      scan_step op max_batch_count s (refill_exit s)
  | issue (s : scan_split_state) (h : 0 < s.passed) :
      scan_step op max_batch_count s (issue_async_next s)
  | row_write (s : scan_split_state) (h : 0 < s.fetches)
      (hop : op = scan_data_operator.SCAN_COPY ∨
             op = scan_data_operator.SCAN_CLEAR ∨
             op = scan_data_operator.SCAN_GEN_GEO) :
      scan_step op max_batch_count s (cb_row_write s)
  | row_count (s : scan_split_state) (h : 0 < s.fetches)
      (hop : op = scan_data_operator.SCAN_COUNT) :
      scan_step op max_batch_count s (cb_row_count s)
  | scan_complete (s : scan_split_state) (h : 0 < s.fetches) :
      scan_step op max_batch_count s (cb_scan_complete s)
  | scan_error (s : scan_split_state) (h : 0 < s.fetches) :
      scan_step op max_batch_count s (cb_scan_error s)
  | nested_ok (s : scan_split_state) (h : 0 < s.nested) :
      scan_step op max_batch_count s (cb_nested_ok s)
  | nested_error (s : scan_split_state) (h : 0 < s.nested) :
      scan_step op max_batch_count s (cb_nested_error s)
  | dec (s : scan_split_state) (h : 0 < s.dec_pending) :
      scan_step op max_batch_count s (dec_request_count s)

/-- The state right after `scan_data_context` construction (lines 128-143),
when the driver calls `scan_data_next` once: all atomics zero/false and a
single execution of the refill loop about to test its condition. -/
def scan_init : scan_split_state :=
  { split_request_count := 0, split_completed := false,
    error_occurred := false, split_rows := 0, emitted := 0,
    checkers := 1, passed := 0, fetches := 0, nested := 0, dec_pending := 0 }

/-- States reachable by the split's interleaved execution. -/
inductive scan_reachable (op : scan_data_operator) (max_batch_count : Int) :
    scan_split_state → Prop
  | init : scan_reachable op max_batch_count scan_init
  | step {s t : scan_split_state} (hs : scan_reachable op max_batch_count s)
      (hst : scan_step op max_batch_count s t) :
      scan_reachable op max_batch_count t

/-! ## call_remote_command (source lines 315-341): the command fan-out

One `cli.call` per node, each with the literal timeout
`std::chrono::milliseconds(5000)` (line 336); the function then waits on
every task (lines 338-340) and `results[i]` is `(true, payload)` on
`ERR_OK` and `(false, err.to_string())` otherwise (lines 325-334).
The issued calls and the per-node result computation are modelled
separately.  The scan pipeline's nested operations (lines 167-260) each
carry `context->timeout_ms`; their issuance is modelled by
`scan_cb_issued_calls`.
-/

inductive issued_call_kind
  | client_async_set
  | client_async_del
  | geo_async_set
deriving DecidableEq

structure issued_call where
  kind : issued_call_kind
  timeout_ms : Int
deriving DecidableEq

/-- The asynchronous per-row operations issued by one fetch callback of
`scan_data_next` with `ret == PERR_OK`, given the context's `timeout_ms`
(lines 167-189, 191-213, 215-236, 237-260). -/
def scan_cb_issued_calls (op : scan_data_operator) (timeout_ms : Int) :
    List issued_call :=
  match op with
  | scan_data_operator.SCAN_COPY =>
    [{ kind := issued_call_kind.client_async_set, timeout_ms := timeout_ms }]
  | scan_data_operator.SCAN_CLEAR =>
    [{ kind := issued_call_kind.client_async_del, timeout_ms := timeout_ms }]
  | scan_data_operator.SCAN_COUNT => []
  | scan_data_operator.SCAN_GEN_GEO =>
    [{ kind := issued_call_kind.geo_async_set, timeout_ms := timeout_ms }]

structure remote_command_call where
  node_index : Nat
  timeout_ms : Int
deriving DecidableEq

/-- Lines 324-337: the loop issues one `cli.call` per node, always with the
fixed 5000 ms timeout; `call_remote_command` has no timeout parameter. -/
def call_remote_command_calls (num_nodes : Nat) : List remote_command_call :=
  (List.range num_nodes).map
    (fun i => { node_index := i, timeout_ms := 5000 })

/-- Lines 325-334: the per-node callback fills `results[i]`. -/
def call_remote_command_result (outcome : Except String String) :
    Bool × String :=
  match outcome with
  | Except.ok payload => (true, payload)
  | Except.error e => (false, e)

/-- Lines 321-340: after the join, `results` holds one entry per node,
entry `i` computed from node `i`'s own outcome (success payload, or the
error string of its timeout/transport error). -/
def call_remote_command_results (num_nodes : Nat)
    (outcome : Nat → Except String String) : List (Bool × String) :=
  (List.range num_nodes).map
    (fun i => call_remote_command_result (outcome i))

/-! ## Counter aggregation (source lines 361-432 and 522-535 / 576-587)

`row_data` and `update_app_pegasus_perf_counter` are copied field for
field; the `double` accumulators are modelled as rationals.  The two
per-counter loop bodies of `get_app_stat` (the all-apps branch, lines
522-535, and the single-app branch, lines 576-587) are modelled as
functions on one counter.  `dassert` failures and out-of-bounds vector
indexing are distinguished by `cxx_fault`.
-/

inductive cxx_fault
  | assert_failed
  | out_of_bounds
deriving DecidableEq

/-- `std::vector::operator[]` with an `int32_t` index: defined only for
`0 ≤ i < size`, out of bounds otherwise (undefined behaviour in C++). -/
def vector_index {α : Type} (l : List α) (i : Int) : Except cxx_fault α :=
  if h : 0 ≤ i ∧ i.toNat < l.length then Except.ok (l.get ⟨i.toNat, h.2⟩)
  else Except.error cxx_fault.out_of_bounds

structure partition_configuration where
  primary : Nat
deriving DecidableEq

structure row_data where
  row_name : String
  get_qps : Rat
  multi_get_qps : Rat
  put_qps : Rat
  multi_put_qps : Rat
  remove_qps : Rat
  multi_remove_qps : Rat
  incr_qps : Rat
  check_and_set_qps : Rat
  check_and_mutate_qps : Rat
  scan_qps : Rat
  recent_expire_count : Rat
  recent_filter_count : Rat
  recent_abnormal_count : Rat
  storage_mb : Rat
  storage_count : Rat
  rdb_block_cache_hit_count : Rat
  rdb_block_cache_total_count : Rat
  rdb_block_cache_mem_usage : Rat
  rdb_index_and_filter_blocks_mem_usage : Rat
  rdb_memtable_mem_usage : Rat
deriving DecidableEq

/-- Source lines 386-432: add `value` into the accumulator selected by
`counter_name`; the Bool is the C++ return value (false on an unrecognized
name, in which case the row is untouched). -/
def update_app_pegasus_perf_counter (row : row_data)
    (counter_name : List Char) (value : Rat) : row_data × Bool :=
  if counter_name = ("get_qps").toList then
    ({ row with get_qps := row.get_qps + value }, true)
  else if counter_name = ("multi_get_qps").toList then
    ({ row with multi_get_qps := row.multi_get_qps + value }, true)
  else if counter_name = ("put_qps").toList then
    ({ row with put_qps := row.put_qps + value }, true)
  else if counter_name = ("multi_put_qps").toList then
    ({ row with multi_put_qps := row.multi_put_qps + value }, true)
  else if counter_name = ("remove_qps").toList then
    ({ row with remove_qps := row.remove_qps + value }, true)
  else if counter_name = ("multi_remove_qps").toList then
    ({ row with multi_remove_qps := row.multi_remove_qps + value }, true)
  else if counter_name = ("incr_qps").toList then
    ({ row with incr_qps := row.incr_qps + value }, true)
  else if counter_name = ("check_and_set_qps").toList then
    ({ row with check_and_set_qps := row.check_and_set_qps + value }, true)
  else if counter_name = ("check_and_mutate_qps").toList then
    ({ row with check_and_mutate_qps := row.check_and_mutate_qps + value }, true)
  else if counter_name = ("scan_qps").toList then
    ({ row with scan_qps := row.scan_qps + value }, true)
  else if counter_name = ("recent.expire.count").toList then
    ({ row with recent_expire_count := row.recent_expire_count + value }, true)
  else if counter_name = ("recent.filter.count").toList then
    ({ row with recent_filter_count := row.recent_filter_count + value }, true)
  else if counter_name = ("recent.abnormal.count").toList then
    ({ row with recent_abnormal_count := row.recent_abnormal_count + value }, true)
  else if counter_name = ("disk.storage.sst(MB)").toList then
    ({ row with storage_mb := row.storage_mb + value }, true)
  else if counter_name = ("disk.storage.sst.count").toList then
    ({ row with storage_count := row.storage_count + value }, true)
  else if counter_name = ("rdb.block_cache.hit_count").toList then
    ({ row with rdb_block_cache_hit_count := row.rdb_block_cache_hit_count + value }, true)
  else if counter_name = ("rdb.block_cache.total_count").toList then
    ({ row with rdb_block_cache_total_count := row.rdb_block_cache_total_count + value }, true)
  else if counter_name = ("rdb.block_cache.memory_usage").toList then
    ({ row with rdb_block_cache_mem_usage := row.rdb_block_cache_mem_usage + value }, true)
  else if counter_name = ("rdb.index_and_filter_blocks.memory_usage").toList then
    ({ row with rdb_index_and_filter_blocks_mem_usage := row.rdb_index_and_filter_blocks_mem_usage + value }, true)
  else if counter_name = ("rdb.memtable.memory_usage").toList then
    ({ row with rdb_memtable_mem_usage := row.rdb_memtable_mem_usage + value }, true)
  else (row, false)

/-- `app_partitions.find(app_id)` on the `std::map` of line 476. -/
def app_partitions_find
    (app_partitions : List (Int × List partition_configuration))
    (app_id : Int) : Option (List partition_configuration) :=
  (app_partitions.find? (fun kv => kv.1 == app_id)).map Prod.snd

/-- Source lines 522-535, one iteration of the per-counter loop of the
all-apps branch of `get_app_stat`:
parse the name (`dassert(parse_ret)` on failure), look the app up in
`app_partitions` (`continue` when absent), index the partition vector with
`partition_index_x` (no bounds check), `continue` unless the recorded
primary equals the reporting node, else add into the app's row.
`app_row_idx` is the map built at lines 495-500; with the app present in
`app_partitions` it holds a valid row index for that app. -/
def get_app_stat_counter_all
    (app_partitions : List (Int × List partition_configuration))
    (app_row_idx : Int → Nat)
    (rows : List row_data)
    (node_addr : Nat)
    (counter : List Char) (value : Rat) : Except cxx_fault (List row_data) :=
  match parse_app_pegasus_perf_counter_name counter with
  | none => Except.error cxx_fault.assert_failed
  | some (app_id_x, partition_index_x, counter_name) =>
    match app_partitions_find app_partitions app_id_x with
    | none => Except.ok rows
    | some pcs =>
      match vector_index pcs partition_index_x with
      | Except.error e => Except.error e
      | Except.ok pc =>
        if pc.primary ≠ node_addr then Except.ok rows
        else
          match vector_index rows ((app_row_idx app_id_x : Nat) : Int) with
          | Except.error e => Except.error e
          | Except.ok row =>
            Except.ok (rows.set (app_row_idx app_id_x)
              (update_app_pegasus_perf_counter row counter_name value).1)

/-- Source lines 576-587, one iteration of the per-counter loop of the
single-app branch of `get_app_stat`: parse the name, `dassert` that it
parses, that `app_id_x == app_id` and that
`partition_index_x < partition_count`, index `partitions` and `rows`
directly with `partition_index_x` (a negative index is still unchecked),
skip unless the recorded primary equals the reporting node, else add into
the partition's row. -/
def get_app_stat_counter_single
    (app_id : Int) (partition_count : Int)
    (partitions : List partition_configuration)
    (rows : List row_data) (node_addr : Nat)
    (counter : List Char) (value : Rat) : Except cxx_fault (List row_data) :=
  match parse_app_pegasus_perf_counter_name counter with
  | none => Except.error cxx_fault.assert_failed
  | some (app_id_x, partition_index_x, counter_name) =>
    if app_id_x ≠ app_id then Except.error cxx_fault.assert_failed
    else if partition_count ≤ partition_index_x then
      Except.error cxx_fault.assert_failed
    else
      match vector_index partitions partition_index_x with
      | Except.error e => Except.error e
      | Except.ok pc =>
        if pc.primary ≠ node_addr then Except.ok rows
        else
          match vector_index rows partition_index_x with
          | Except.error e => Except.error e
          | Except.ok row =>
            Except.ok (rows.set partition_index_x.toNat
              (update_app_pegasus_perf_counter row counter_name value).1)

/-! ## Concrete inputs used by witnesses -/

/-- A freshly initialized `row_data` (all accumulators zero, lines 361-384). -/
def row_zero : row_data :=
  { row_name := "t", get_qps := 0, multi_get_qps := 0, put_qps := 0,
    multi_put_qps := 0, remove_qps := 0, multi_remove_qps := 0,
    incr_qps := 0, check_and_set_qps := 0, check_and_mutate_qps := 0,
    scan_qps := 0, recent_expire_count := 0, recent_filter_count := 0,
    recent_abnormal_count := 0, storage_mb := 0, storage_count := 0,
    rdb_block_cache_hit_count := 0, rdb_block_cache_total_count := 0,
    rdb_block_cache_mem_usage := 0,
    rdb_index_and_filter_blocks_mem_usage := 0,
    rdb_memtable_mem_usage := 0 }

/-- Five nodes where node index 2 times out and the others answer. -/
def fanout5_outcome (i : Nat) : Except String String :=
  if i = 2 then Except.error ("ERR_TIMEOUT") else Except.ok ("counters")

/-! ## Theorems -/

theorem find_last_of_eq_none {s : List Char} {c : Char} (h : c ∉ s) :
    find_last_of s c = none := by
  induction s with
  | nil => rfl
  | cons a rest ih =>
    simp only [List.mem_cons, not_or] at h
    simp only [find_last_of, ih h.2]
    rw [if_neg (fun hac => h.1 hac.symm)]

theorem parse_eq_none_iff (name : List Char) :
    parse_app_pegasus_perf_counter_name name = none ↔
      (find_last_of name '@' = none
       ∨ (∃ f, find_last_of name '@' = some f
            ∧ sscanf_d_dot_d (name.drop (f + 1)) = none)
       ∨ find_last_of name '*' = none) := by
  cases h1 : find_last_of name '@' with
  | none => simp [parse_app_pegasus_perf_counter_name, h1]
  | some f =>
    cases h2 : sscanf_d_dot_d (name.drop (f + 1)) with
    | none => simp [parse_app_pegasus_perf_counter_name, h1, h2]
    | some ab =>
      obtain ⟨a, b⟩ := ab
      cases h3 : find_last_of name '*' with
      | none => simp [parse_app_pegasus_perf_counter_name, h1, h2, h3]
      | some f2 => simp [parse_app_pegasus_perf_counter_name, h1, h2, h3]

/-- C1 (code bug): with capacity K = 2 and offers of sizes 10, 20 and 30,
`top_container::push` keeps the items of sizes 10 and 30 and discards the
item of size 20: the comparator of line 69 makes `top()` the maximum, so a
full heap evicts its largest member, and the held item of size 10 is
smaller than the discarded size 20 — contradicting the claim that every
held item's size is at least every discarded item's size (and the intended
top-K-largest behaviour of the container). -/
theorem top_container_evicts_largest_eval :
    (top_container_push_all 2
      [⟨("a").toList, ("x").toList, 10⟩,
       ⟨("b").toList, ("y").toList, 20⟩,
       ⟨("c").toList, ("z").toList, 30⟩]).map top_heap_item.row_size
      = [30, 10]
    ∧ ¬ (∀ h ∈ (top_container_push_all 2
          [⟨("a").toList, ("x").toList, 10⟩,
           ⟨("b").toList, ("y").toList, 20⟩,
           ⟨("c").toList, ("z").toList, 30⟩]).map top_heap_item.row_size,
          (20 : Int) ≤ h) := by decide

/-- C2 (counterexample): parsing `"*get_qps*rdb@7.3"` succeeds but yields
metric name `"rdb"` — the text between the last `'*'` and the last `'@'` —
not `"get_qps"` as the claim states. -/
theorem parse_counter_name_metric_counterexample :
    parse_app_pegasus_perf_counter_name ("*get_qps*rdb@7.3").toList
      = some (7, 3, ("rdb").toList)
    ∧ ("rdb").toList ≠ ("get_qps").toList := by decide

/-- C2 (amended): parsing `"*get_qps*rdb@7.3"` succeeds with
entity id 7, partition index 3 and metric name `"rdb"` (the text between
the last `'*'` and the last `'@'`); and any name containing no `'@'`, or
containing no `'*'`, fails to parse. -/
theorem parse_counter_name_amended :
    parse_app_pegasus_perf_counter_name ("*get_qps*rdb@7.3").toList
      = some (7, 3, ("rdb").toList)
    ∧ (∀ name : List Char, '@' ∉ name →
        parse_app_pegasus_perf_counter_name name = none)
    ∧ (∀ name : List Char, '*' ∉ name →
        parse_app_pegasus_perf_counter_name name = none) := by
  refine ⟨by decide, ?_, ?_⟩
  · intro name h
    exact (parse_eq_none_iff name).2 (Or.inl (find_last_of_eq_none h))
  · intro name h
    exact (parse_eq_none_iff name).2 (Or.inr (Or.inr (find_last_of_eq_none h)))

theorem parse_counter_name_amended_witness :
    parse_app_pegasus_perf_counter_name ("no_at_delimiter").toList = none :=
  parse_counter_name_amended.2.1 (("no_at_delimiter").toList) (by decide)

/-- C5 (counterexample): in `"@7.3*x"` the last `'*'` (index 4) occurs
after the last `'@'` (index 0), yet parsing succeeds, returning
`(7, 3, "x")`: the `size_type` length `find - find2 - 1` wraps around and
`substr` clamps it, so the relative order of the delimiters is never
checked. -/
theorem parse_order_counterexample :
    find_last_of ("@7.3*x").toList '@' = some 0
    ∧ find_last_of ("@7.3*x").toList '*' = some 4
    ∧ parse_app_pegasus_perf_counter_name ("@7.3*x").toList
        = some (7, 3, ("x").toList) := by decide

/-- C5 (amended): the parser fails exactly when the name contains no `'@'`,
or the text after the final `'@'` cannot be parsed as two dot-separated
integers, or the name contains no `'*'`; the relative order of the
delimiters is not among the failure conditions. -/
theorem parse_failure_characterization (name : List Char) :
    parse_app_pegasus_perf_counter_name name = none ↔
      (find_last_of name '@' = none
       ∨ (∃ f, find_last_of name '@' = some f
            ∧ sscanf_d_dot_d (name.drop (f + 1)) = none)
       ∨ find_last_of name '*' = none) :=
  parse_eq_none_iff name

/-- C6 (counterexample): `call_remote_command` takes no timeout parameter
and issues every fan-out RPC with the literal 5000 ms timeout of line 336;
for a caller-chosen timeout of 1000 ms the issued timeout is 5000 ≠ 1000,
so the fan-out does substitute a fixed timeout of its own. -/
theorem fanout_fixed_timeout_counterexample :
    call_remote_command_calls 1
      = [{ node_index := 0, timeout_ms := 5000 }]
    ∧ ({ node_index := 0, timeout_ms := 5000 } :
        remote_command_call).timeout_ms ≠ 1000 := by decide

/-- C6 (amended): every per-row store/delete/geo operation issued by a
fetch callback carries the caller-supplied `timeout_ms` of its context,
while every fan-out RPC of `call_remote_command` is issued with the fixed
5000 ms timeout. -/
theorem issued_timeouts_amended (op : scan_data_operator) (t : Int)
    (n : Nat) :
    (scan_cb_issued_calls op t).all (fun c => c.timeout_ms == t) = true
    ∧ (call_remote_command_calls n).all
        (fun c => c.timeout_ms == 5000) = true := by
  constructor
  · cases op <;> simp [scan_cb_issued_calls]
  · simp [call_remote_command_calls, List.all_eq_true, List.mem_map]

/-- C7 (confirmed): the `PERR_SCAN_COMPLETE` callback branch sets the
split's completed flag to true, leaves the shared error flag unchanged and
emits no diagnostic; the error branch, from a not-yet-completed state, sets
both flags and emits exactly one diagnostic. -/
theorem scan_complete_success_termination (s : scan_split_state) :
    (cb_scan_complete s).split_completed = true
    ∧ (cb_scan_complete s).error_occurred = s.error_occurred
    ∧ (cb_scan_complete s).emitted = s.emitted
    ∧ (s.split_completed = false →
        (cb_scan_error s).split_completed = true
        ∧ (cb_scan_error s).error_occurred = true
        ∧ (cb_scan_error s).emitted = s.emitted + 1) := by
  refine ⟨rfl, rfl, rfl, ?_⟩
  intro h
  simp [cb_scan_error, report_error, h]

theorem scan_complete_success_termination_witness :
    (cb_scan_complete scan_init).split_completed = true
    ∧ (cb_scan_complete scan_init).error_occurred = false
    ∧ (cb_scan_complete scan_init).emitted = 0
    ∧ ((cb_scan_error scan_init).split_completed = true
       ∧ (cb_scan_error scan_init).error_occurred = true
       ∧ (cb_scan_error scan_init).emitted = 0 + 1) := by
  have h := scan_complete_success_termination scan_init
  exact ⟨h.1, h.2.1, h.2.2.1, h.2.2.2 rfl⟩

/-- C3 (counterexample): with `max_batch_count = 1` and operation copy, a
single-threaded run already drives `split_request_count` to 2: the refill
loop issues the one allowed fetch (counter 1), and the fetch callback then
executes `split_request_count++` (line 167) before issuing its nested
`async_set`, while its own decrement (line 187) has not yet run — so the
counter exceeds the cap, contradicting the claim that it never exceeds M. -/
theorem scan_inflight_exceeds_cap :
    scan_reachable scan_data_operator.SCAN_COPY 1
      (cb_row_write (issue_async_next (refill_pass scan_init)))
    ∧ (cb_row_write (issue_async_next (refill_pass scan_init))).split_request_count = 2
    ∧ ¬ ((cb_row_write (issue_async_next (refill_pass scan_init))).split_request_count ≤ 1) := by
  refine ⟨?_, by decide, by decide⟩
  exact scan_reachable.step
    (scan_reachable.step
      (scan_reachable.step scan_reachable.init
        (scan_step.check_pass scan_init (by decide) (by decide)))
      (scan_step.issue (refill_pass scan_init) (by decide)))
    (scan_step.row_write (issue_async_next (refill_pass scan_init))
      (by decide) (Or.inl rfl))

/-- C3 (amended): a fetch is issued only by a refill execution whose
condition `!completed && !error_flag && count < max_batch_count` held when
it was evaluated, but the evaluation and the increment are separate atomic
operations, and the copy/clear/geo callbacks increment the counter again
before issuing their nested call, so the counter can momentarily exceed
`max_batch_count`.  In every reachable state the counter equals the number
of outstanding fetches plus outstanding nested operations plus callbacks
that still owe their final decrement; in particular it is never negative. -/
theorem scan_request_count_accounting (op : scan_data_operator) (M : Int)
    (s : scan_split_state) (h : scan_reachable op M s) :
    s.split_request_count
      = (s.fetches : Int) + (s.nested : Int) + (s.dec_pending : Int)
    ∧ 0 ≤ s.split_request_count := by
  have key : s.split_request_count
      = (s.fetches : Int) + (s.nested : Int) + (s.dec_pending : Int) := by
    induction h with
    | init => rfl
    | @step u t hs hst ih =>
      cases hst with
      | check_pass h1 h2 => simpa [refill_pass] using ih
      | check_exit h1 h2 => simpa [refill_exit] using ih
      | issue h => simp [issue_async_next]; omega
      | row_write h hop => simp [cb_row_write]; omega
      | row_count h hop => simp [cb_row_count]; omega
      | scan_complete h => simp [cb_scan_complete]; omega
      | scan_error h =>
        by_cases hc : u.split_completed <;>
          simp [cb_scan_error, report_error, hc] <;> omega
      | nested_ok h => simp [cb_nested_ok]; omega
      | nested_error h =>
        by_cases hc : u.split_completed <;>
          simp [cb_nested_error, report_error, hc] <;> omega
      | dec h => simp [dec_request_count]; omega
  refine ⟨key, ?_⟩
  rw [key]
  omega

theorem scan_request_count_accounting_witness :
    scan_init.split_request_count
      = (scan_init.fetches : Int) + (scan_init.nested : Int)
        + (scan_init.dec_pending : Int)
    ∧ 0 ≤ scan_init.split_request_count :=
  scan_request_count_accounting scan_data_operator.SCAN_COPY 1 scan_init
    scan_reachable.init

theorem scan_emitted_invariant (op : scan_data_operator) (M : Int)
    (s : scan_split_state) (h : scan_reachable op M s) :
    s.emitted ≤ 1 ∧ (s.split_completed = false → s.emitted = 0) := by
  induction h with
  | init => exact ⟨by decide, fun _ => rfl⟩
  | @step u t hs hst ih =>
    cases hst with
    | check_pass h1 h2 => simpa [refill_pass] using ih
    | check_exit h1 h2 => simpa [refill_exit] using ih
    | issue h => simpa [issue_async_next] using ih
    | row_write h hop => simpa [cb_row_write] using ih
    | row_count h hop => simpa [cb_row_count] using ih
    | scan_complete h =>
      exact ⟨ih.1, by simp [cb_scan_complete]⟩
    | scan_error h =>
      by_cases hc : u.split_completed
      · refine ⟨by simpa [cb_scan_error, report_error, hc] using ih.1, ?_⟩
        simp [cb_scan_error, report_error, hc]
      · have h0 : u.emitted = 0 := ih.2 (by simpa using hc)
        refine ⟨by simp [cb_scan_error, report_error, hc, h0], ?_⟩
        simp [cb_scan_error, report_error, hc]
    | nested_ok h => simpa [cb_nested_ok] using ih
    | nested_error h =>
      by_cases hc : u.split_completed
      · refine ⟨by simpa [cb_nested_error, report_error, hc] using ih.1, ?_⟩
        simp [cb_nested_error, report_error, hc]
      · have h0 : u.emitted = 0 := ih.2 (by simpa using hc)
        refine ⟨by simp [cb_nested_error, report_error, hc, h0], ?_⟩
        simp [cb_nested_error, report_error, hc]
    | dec h => simpa [dec_request_count] using ih

/-- C4 (confirmed): in every reachable state of a split's interleaved
execution, at most one error diagnostic has been emitted, no matter how
many fetch or nested-write callbacks fail: the `split_completed.exchange(true)`
guard lets only the first failing callback print and set the error flag. -/
theorem at_most_one_error_diagnostic (op : scan_data_operator) (M : Int)
    (s : scan_split_state) (h : scan_reachable op M s) :
    s.emitted ≤ 1 :=
  (scan_emitted_invariant op M s h).1

theorem at_most_one_error_diagnostic_witness :
    (cb_scan_error (issue_async_next (refill_pass scan_init))).emitted ≤ 1 :=
  at_most_one_error_diagnostic scan_data_operator.SCAN_COPY 1 _
    (scan_reachable.step
      (scan_reachable.step
        (scan_reachable.step scan_reachable.init
          (scan_step.check_pass scan_init (by decide) (by decide)))
        (scan_step.issue (refill_pass scan_init) (by decide)))
      (scan_step.scan_error (issue_async_next (refill_pass scan_init))
        (by decide)))

theorem ite_pair_step {α : Type} {c : Prop} [Decidable c] (r : α)
    (e : α × Bool) (h : (if c then (r, true) else e).2 = false) :
    e.2 = false ∧ (if c then (r, true) else e).1 = e.1 := by
  by_cases hc : c
  · rw [if_pos hc] at h
    exact Bool.noConfusion h
  · rw [if_neg hc] at h ⊢
    exact ⟨h, rfl⟩

set_option maxHeartbeats 1000000 in
theorem update_unrecognized_untouched (row : row_data) (cname : List Char)
    (value : Rat)
    (h : (update_app_pegasus_perf_counter row cname value).2 = false) :
    (update_app_pegasus_perf_counter row cname value).1 = row := by
  unfold update_app_pegasus_perf_counter at h ⊢
  iterate 20
    (obtain ⟨h, heq⟩ := ite_pair_step _ _ h
     rw [heq]
     try clear heq)

/-- C8 (confirmed): a counter that parses as `(a, p, cname)` is routed by
the ownership mapping: in the all-apps branch it is discarded when the
recorded primary of partition `p` is not the reporting node, and otherwise
added into the accumulator selected by `cname` in the row of entity `a`
(one row per entity); in the single-app branch the same discard test
applies and the counter lands in row `p` (one row per partition); an
unrecognized metric name leaves the row untouched without failing the
aggregation. -/
theorem counter_aggregation_routing
    (app_partitions : List (Int × List partition_configuration))
    (app_row_idx : Int → Nat) (rows : List row_data) (node_addr : Nat)
    (counter : List Char) (value : Rat) (a p : Int) (cname : List Char)
    (pcs : List partition_configuration) (pc : partition_configuration)
    (row : row_data)
    (hparse : parse_app_pegasus_perf_counter_name counter = some (a, p, cname))
    (hfind : app_partitions_find app_partitions a = some pcs)
    (hpc : vector_index pcs p = Except.ok pc) :
    (pc.primary ≠ node_addr →
      get_app_stat_counter_all app_partitions app_row_idx rows node_addr
        counter value = Except.ok rows)
    ∧ (pc.primary = node_addr →
        vector_index rows ((app_row_idx a : Nat) : Int) = Except.ok row →
        get_app_stat_counter_all app_partitions app_row_idx rows node_addr
          counter value
          = Except.ok (rows.set (app_row_idx a)
              (update_app_pegasus_perf_counter row cname value).1))
    ∧ ((update_app_pegasus_perf_counter row cname value).2 = false →
        (update_app_pegasus_perf_counter row cname value).1 = row)
    ∧ (∀ (partition_count : Int)
         (partitions : List partition_configuration)
         (prows : List row_data) (pc2 : partition_configuration)
         (prow : row_data),
        p < partition_count →
        vector_index partitions p = Except.ok pc2 →
        vector_index prows p = Except.ok prow →
        (pc2.primary ≠ node_addr →
          get_app_stat_counter_single a partition_count partitions prows
            node_addr counter value = Except.ok prows)
        ∧ (pc2.primary = node_addr →
          get_app_stat_counter_single a partition_count partitions prows
            node_addr counter value
            = Except.ok (prows.set p.toNat
                (update_app_pegasus_perf_counter prow cname value).1))) := by
  refine ⟨?_, ?_, ?_, ?_⟩
  · intro hne
    simp [get_app_stat_counter_all, hparse, hfind, hpc, hne]
  · intro heq hrow
    simp [get_app_stat_counter_all, hparse, hfind, hpc, heq, hrow]
  · intro hfalse
    exact update_unrecognized_untouched row cname value hfalse
  · intro partition_count partitions prows pc2 prow hlt hpc2 hprow
    constructor
    · intro hne
      simp [get_app_stat_counter_single, hparse, hpc2, hne, not_le.mpr hlt]
    · intro heq
      simp [get_app_stat_counter_single, hparse, hpc2, hprow, heq,
        not_le.mpr hlt]

theorem counter_aggregation_routing_witness :
    get_app_stat_counter_all [(1, [⟨5⟩])] (fun _ => 0) [row_zero] 9
      (("x*get_qps@1.0").toList) 1 = Except.ok [row_zero] := by
  have h := counter_aggregation_routing [(1, [⟨5⟩])] (fun _ => 0)
    [row_zero] 9 (("x*get_qps@1.0").toList) 1 1 0 (("get_qps").toList)
    [⟨5⟩] ⟨5⟩ row_zero (by decide) rfl rfl
  exact h.1 (by decide)

/-- C9 (confirmed): the fan-out produces exactly one result per node —
`(true, payload)` on success, `(false, error string)` otherwise — and
entry `i` depends only on node `i`'s own outcome, so one node's timeout or
failure does not change any other node's result. -/
theorem call_remote_command_per_node_results (n : Nat)
    (f g : Nat → Except String String) :
    (call_remote_command_results n f).length = n
    ∧ (∀ i, i < n → (call_remote_command_results n f).get? i
        = some (call_remote_command_result (f i)))
    ∧ (∀ i, i < n → f i = g i →
        (call_remote_command_results n f).get? i
          = (call_remote_command_results n g).get? i) := by
  refine ⟨by simp [call_remote_command_results], ?_, ?_⟩
  · intro i hi
    simp [call_remote_command_results, List.getElem?_map,
      List.getElem?_range, hi]
  · intro i hi hfg
    simp [call_remote_command_results, List.getElem?_map,
      List.getElem?_range, hi, hfg]

theorem call_remote_command_per_node_results_witness :
    (call_remote_command_results 5 fanout5_outcome).length = 5
    ∧ (call_remote_command_results 5 fanout5_outcome).get? 3
        = some (true, "counters")
    ∧ (call_remote_command_results 5 fanout5_outcome).get? 2
        = some (false, "ERR_TIMEOUT") := by
  have h := call_remote_command_per_node_results 5 fanout5_outcome
    fanout5_outcome
  refine ⟨h.1, ?_, ?_⟩
  · rw [h.2.1 3 (by decide)]
    rfl
  · rw [h.2.1 2 (by decide)]
    rfl

/-- C10 (confirmed): in the all-apps branch the parsed partition index is
used to index the entity's partition vector with no bounds check: whenever
`partition_index ≥ partition count` the access is out of bounds, and the
iteration completes normally only when `0 ≤ partition_index < partition
count`; the single-app branch instead stops on its
`dassert(partition_index_x < partition_count)`. -/
theorem counter_partition_index_bounds
    (app_partitions : List (Int × List partition_configuration))
    (app_row_idx : Int → Nat) (rows : List row_data) (node_addr : Nat)
    (counter : List Char) (value : Rat) (a p : Int) (cname : List Char)
    (pcs : List partition_configuration)
    (hparse : parse_app_pegasus_perf_counter_name counter = some (a, p, cname))
    (hfind : app_partitions_find app_partitions a = some pcs) :
    ((pcs.length : Int) ≤ p →
      get_app_stat_counter_all app_partitions app_row_idx rows node_addr
        counter value = Except.error cxx_fault.out_of_bounds)
    ∧ (∀ r, get_app_stat_counter_all app_partitions app_row_idx rows
          node_addr counter value = Except.ok r →
        0 ≤ p ∧ p < (pcs.length : Int))
    ∧ (∀ (partition_count : Int)
         (partitions : List partition_configuration)
         (prows : List row_data),
        partition_count ≤ p →
        get_app_stat_counter_single a partition_count partitions prows
          node_addr counter value = Except.error cxx_fault.assert_failed) := by
  refine ⟨?_, ?_, ?_⟩
  · intro hle
    have hvi : vector_index pcs p = Except.error cxx_fault.out_of_bounds := by
      unfold vector_index
      rw [dif_neg (by omega)]
    simp [get_app_stat_counter_all, hparse, hfind, hvi]
  · intro r hr
    by_cases hb : 0 ≤ p ∧ p.toNat < pcs.length
    · omega
    · exfalso
      have hvi : vector_index pcs p = Except.error cxx_fault.out_of_bounds := by
        unfold vector_index
        rw [dif_neg hb]
      simp [get_app_stat_counter_all, hparse, hfind, hvi] at hr
  · intro partition_count partitions prows hle
    simp [get_app_stat_counter_single, hparse, hle]

theorem counter_partition_index_bounds_witness :
    get_app_stat_counter_all [(1, [⟨5⟩])] (fun _ => 0) [row_zero] 9
      (("x*m@1.5").toList) 1 = Except.error cxx_fault.out_of_bounds := by
  have h := counter_partition_index_bounds [(1, [⟨5⟩])] (fun _ => 0)
    [row_zero] 9 (("x*m@1.5").toList) 1 1 5 (("m").toList) [⟨5⟩]
    (by decide) rfl
  exact h.1 (by decide)
